import Mathlib

/-!
Shallow embedding of the `fromzeros` derive crate.

Source files embedded:
- src/fromzeros_derive/src/lib.rs : the derive macro `from_zeros_derive` and
  its helpers `impl_fromzeros`, `add_trait_bounds`, `zeroed_fields`,
  `zero_variant`, `explicit_discriminant`, `is_clike`, `has_primitive_repr`,
  `repr`, `is_primitive`.
- src/fromzeros/src/lib.rs : the leaf `FromZeros` capability declarations
  (primitive impls, pointer/array/slice impls), used to model which field
  types the emitted code can show to be zero-capable.

The syn data types consumed by the macro (DeriveInput, Data, Fields, Field,
Variant, Expr, Lit, Attribute, Meta, Generics, GenericParam) are embedded
just as deeply as the source inspects them; parts the source never looks at
(e.g. the items inside a nested meta list, spans, the token of an attribute
that `interpret_meta` failed to parse) are collapsed into opaque
constructors or dropped, with a comment at each such point.
-/

namespace Fromzeros

/-- Model of a field type (syn::Type), shaped after the leaf `FromZeros`
impls of src/fromzeros/src/lib.rs plus the two shapes the derive itself can
meet: a generic type parameter of the input, and any other user-written
type. -/
inductive Ty where
  | unit | bool | char
  | i8 | i16 | i32 | i64 | i128 | isize
  | u8 | u16 | u32 | u64 | u128 | usize
  | f32 | f64
  | constPtr (t : Ty)
  | mutPtr (t : Ty)
  | slice (t : Ty)
  | array (t : Ty) (n : Nat)
  | param (name : String)
  | named (name : String)
deriving DecidableEq

/-- Model of syn::Lit as far as `explicit_discriminant` inspects it: an
integer literal carrying its `LitInt::value()` (a u64, hence a Nat — the
token of an integer literal is unsigned; a minus sign is not part of it),
or any other literal. -/
inductive Lit where
  | int (value : Nat)
  | other
deriving DecidableEq

/-- Model of syn::Expr as far as discriminant expressions are inspected: a
literal expression (Expr::Lit), a unary-operator expression such as the
negation `-1` (Expr::Unary), or any other expression. Only the
`Expr.lit (Lit.int _)` shape is ever matched by the source. -/
inductive Expr where
  | lit (l : Lit)
  | unary (e : Expr)
  | other
deriving DecidableEq

/-- Model of syn::Field: an optional identifier (present for named fields,
absent for tuple fields) and a type. Spans are not modelled. -/
structure Field where
  ident : Option String
  ty : Ty
deriving DecidableEq

/-- Model of syn::Fields: unit, unnamed (tuple) fields in declaration
order, or named fields in declaration order. -/
inductive Fields where
  | unit
  | unnamed (fields : List Field)
  | named (fields : List Field)
deriving DecidableEq

/-- Model of syn::Variant: identifier, optional explicit discriminant
expression (the `= expr` after the variant name; the `Eq` token is
dropped), and the variant's fields. -/
structure Variant where
  ident : String
  discriminant : Option Expr
  fields : Fields
deriving DecidableEq

/-- Model of syn::DataEnum: the declared variants in order. -/
structure DataEnum where
  variants : List Variant
deriving DecidableEq

/-- Model of syn::NestedMeta one level deep: a nested meta that is itself a
word, a list, or a name-value meta, or a literal. `is_primitive` only
matches the word shape, so the contents of a nested list are not
modelled. -/
inductive NestedMeta where
  | word (s : String)
  | list (ident : String)
  | nameValue (s : String)
  | literal
deriving DecidableEq

/-- Model of syn::MetaList: the attribute path identifier and the nested
metas between the parentheses. -/
structure MetaList where
  ident : String
  nested : List NestedMeta
deriving DecidableEq

/-- Model of syn::Meta: a bare word, a list such as `repr(u8)`, or a
name-value pair. -/
inductive Meta where
  | word (s : String)
  | list (l : MetaList)
  | nameValue (s : String)
deriving DecidableEq

/-- Model of syn::Attribute as far as the source reads it: the result of
`interpret_meta()`, which is `none` when the attribute tokens do not form a
recognized meta item. -/
structure Attribute where
  meta : Option Meta
deriving DecidableEq

/-- Model of a bound in a generic parameter's bound list. The source only
ever pushes the `fromzeros::FromZeros` bound; pre-existing bounds are
opaque. -/
inductive TypeBound where
  | fromZeros
  | other (s : String)
deriving DecidableEq

/-- Model of syn::GenericParam: a type parameter with its bound list, a
lifetime parameter, or a const parameter. -/
inductive GenericParam where
  | typeParam (ident : String) (bounds : List TypeBound)
  | lifetimeDef (name : String)
  | constParam (name : String)
deriving DecidableEq

/-- Model of syn::Data: the three kinds of type definition. A union's
fields are a syn::FieldsNamed, i.e. a named field list. -/
inductive Data where
  | structData (fields : Fields)
  | unionData (fields : List Field)
  | enumData (data : DataEnum)
deriving DecidableEq

/-- Model of syn::DeriveInput as far as the macro reads it: identifier,
attributes, generics, and the data. -/
structure DeriveInput where
  ident : String
  attrs : List Attribute
  generics : List GenericParam
  data : Data
deriving DecidableEq

/-- One `<ty as fromzeros::FromZeros>::zeroed()` call in the emitted
construction expression; the call is determined entirely by the field
type. -/
inductive ZeroCall where
  | call (ty : Ty)
deriving DecidableEq

/-- The zero-construction expression produced by `zeroed_fields`: nothing
for a unit field list, a parenthesized positional list for unnamed fields,
or a braced `name : call` list for named fields. -/
inductive ZeroExpr where
  | empty
  | positional (slots : List ZeroCall)
  | braced (entries : List (Option String × ZeroCall))
deriving DecidableEq

/-- The emitted implementation, mirroring the quote! body of
`impl_fromzeros`: the target type's name, the generics after
`add_trait_bounds`, the optional variant qualifier of the constructed
value, and the zero-construction expression. -/
structure Artifact where
  name : String
  generics : List GenericParam
  variant : Option String
  zeroed : ZeroExpr
deriving DecidableEq

/-- The two panics of `from_zeros_derive`, each carrying its panic
message. -/
inductive DeriveError where
  | layoutUndefined (msg : String)
  | noZeroDiscriminant (msg : String)
deriving DecidableEq

/-- Embeds `explicit_discriminant` (src/fromzeros_derive/src/lib.rs lines
145-156): the value of a variant's explicit discriminant, but only when
the discriminant expression is a plain integer-literal expression
(Expr::Lit holding Lit::Int); any other expression — including the unary
negation a negative discriminant parses to — yields none. -/
def explicit_discriminant (variant : Variant) : Option Nat :=
  match variant.discriminant with
  | some (.lit (.int n)) => some n
  | _ => none

/-- Embeds `zero_variant` (lines 128-158): take the first variant off the
iterator (none for an empty enum); its discriminant is implicitly zero
unless specified; if that is 0 the first variant is the answer, otherwise
search the remaining variants for one whose explicit discriminant is 0. -/
def zero_variant (ast : DataEnum) : Option Variant :=
  match ast.variants with
  | [] => none
  | first :: rest =>
    let first_discriminant := (explicit_discriminant first).getD 0
    if first_discriminant = 0 then
      some first
    else
      rest.find? fun variant => explicit_discriminant variant = some 0

/-- Embeds `is_clike` (lines 161-168): true when every variant is
unit-like. -/
def is_clike (ast : DataEnum) : Bool :=
  ast.variants.all fun variant =>
    match variant.fields with
    | .unit => true
    | _ => false

/-- The twelve primitive integer type names of `is_primitive` (lines
198-202). -/
def VALID : List String :=
  ["i8", "i16", "i32", "i64", "i128", "isize",
   "u8", "u16", "u32", "u64", "u128", "usize"]

/-- Embeds `is_primitive` (lines 197-213): true exactly when the nested
meta is a bare word naming one of the twelve primitive integer types. -/
def is_primitive (meta : NestedMeta) : Bool :=
  match meta with
  | .word w => VALID.any fun t => w = t
  | _ => false

/-- Embeds the helper `repr` (lines 183-194): the attribute's interpreted
meta, when it is a meta list whose identifier is "repr". -/
def reprAttr (ast : Attribute) : Option MetaList :=
  match ast.meta with
  | some (.list attr) => if attr.ident = "repr" then some attr else none
  | _ => none

/-- Embeds `has_primitive_repr` (lines 170-215): find the first attribute
that is a `repr(...)` list and test whether any of its nested metas is a
primitive integer word; false when no attribute is a repr list. -/
def has_primitive_repr (attrs : List Attribute) : Bool :=
  match attrs.findSome? reprAttr with
  | some repr_attr => repr_attr.nested.any is_primitive
  | none => false

/-- Embeds `add_trait_bounds` (lines 86-93): push the
`fromzeros::FromZeros` bound onto every type parameter; other generic
parameters are untouched. -/
def add_trait_bounds (generics : List GenericParam) : List GenericParam :=
  generics.map fun param =>
    match param with
    | .typeParam ident bounds => .typeParam ident (bounds ++ [.fromZeros])
    | p => p

/-- Embeds `zeroed_fields` (lines 96-123): given n fields, produce n
comma-separated `FromZeros::zeroed()` calls — nothing for unit fields, a
parenthesized list for unnamed fields, a braced `name : call` list for
named fields, each in declaration order. -/
def zeroed_fields (fields : Fields) : ZeroExpr :=
  match fields with
  | .unit => .empty
  | .unnamed fs => .positional (fs.map fun f => ZeroCall.call f.ty)
  | .named fs => .braced (fs.map fun f => (f.ident, ZeroCall.call f.ty))

/-- Embeds `impl_fromzeros` (lines 59-125): the emitted implementation
combines the name, the generics with trait bounds added, the optional
variant qualifier, and the zeroed fields expression. -/
def impl_fromzeros (name : String) (generics : List GenericParam)
    (variant : Option String) (fields : Fields) : Artifact :=
  { name := name
    generics := add_trait_bounds generics
    variant := variant
    zeroed := zeroed_fields fields }

/-- The panic message of line 52. The source writes
panic!("\x7b\x7d does not have a variant with a provably-zero discriminant.")
with no further argument: a single-argument panic! in the crate's pre-2021
edition uses the string literally without formatting, so the placeholder
stays in the message and the enum's name is never inserted. -/
def noZeroDiscriminantMsg : String :=
  "\x7b\x7d does not have a variant with a provably-zero discriminant."

/-- The panic message of line 46: here `name` is passed as a format
argument, so the message starts with the enum's identifier. -/
def layoutUndefinedMsg (name : String) : String :=
  name ++ " must be either C-like, or use a primitive repr."

/-- Embeds `from_zeros_derive` (lines 11-56): structs and unions always
emit an implementation over their own fields (a union's named field list
is converted into Fields::Named); an enum must be C-like or carry a
primitive repr, else the macro panics with the layout message, and must
have a zero variant, else it panics with the no-zero-discriminant
message. -/
def from_zeros_derive (input : DeriveInput) : Except DeriveError Artifact :=
  match input.data with
  | .structData fields =>
    .ok (impl_fromzeros input.ident input.generics none fields)
  | .unionData fields =>
    .ok (impl_fromzeros input.ident input.generics none (.named fields))
  | .enumData data =>
    if !(is_clike data || has_primitive_repr input.attrs) then
      .error (.layoutUndefined (layoutUndefinedMsg input.ident))
    else
      match zero_variant data with
      | some variant =>
        .ok (impl_fromzeros input.ident input.generics
              (some variant.ident) variant.fields)
      | none => .error (.noZeroDiscriminant noZeroDiscriminantMsg)

/-- True when the generics in scope give `name` a `FromZeros` bound: some
type parameter with that identifier carries the pushed bound. -/
def hasFromZerosBound (generics : List GenericParam) (name : String) : Bool :=
  generics.any fun param =>
    match param with
    | .typeParam ident bounds => ident = name && bounds.contains .fromZeros
    | _ => false

/-- Modelled from the spec: the consuming stage's capability check for one
field type. It is missing from src/ (it is the trait resolution of the
compiler that consumes the artifact); the spec says a field type supports
the zero capability when a leaf declaration provides it or a propagated
generic bound does. The leaf declarations are those of
src/fromzeros/src/lib.rs: the primitives, raw pointers to a capable type,
slices of any type, and arrays of a capable type; a type parameter is
capable exactly when the generics in scope bound it by `FromZeros`; any
other user type has no leaf declaration here. -/
def zeroCapable (generics : List GenericParam) : Ty → Bool
  | .unit | .bool | .char => true
  | .i8 | .i16 | .i32 | .i64 | .i128 | .isize => true
  | .u8 | .u16 | .u32 | .u64 | .u128 | .usize => true
  | .f32 | .f64 => true
  | .constPtr t => zeroCapable generics t
  | .mutPtr t => zeroCapable generics t
  | .slice _ => true
  | .array t _ => zeroCapable generics t
  | .param name => hasFromZerosBound generics name
  | .named _ => false

/-- The field types demanded by the zero-construction expression: one per
`FromZeros::zeroed()` call it contains. -/
def zeroRequirements (e : ZeroExpr) : List Ty :=
  match e with
  | .empty => []
  | .positional slots => slots.map fun s => match s with | .call t => t
  | .braced entries => entries.map fun p => match p.2 with | .call t => t

/-- Modelled from the spec: the consuming stage accepts the emitted
implementation exactly when every `zeroed()` call in it is on a type
capable under the artifact's own generics. -/
def artifactAccepted (a : Artifact) : Bool :=
  (zeroRequirements a.zeroed).all (zeroCapable a.generics)

/-- The spec's three-way layout classification of section 4.1. -/
inductive RepresentationKind where
  | undefined
  | clike
  | primitiveNumeric
deriving DecidableEq

/-- Stated from the spec's words (section 4.1), to be compared with the
source's layout check: CLike if every variant's field list is Unit, else
PrimitiveNumeric if the attributes carry a recognized primitive repr, else
Undefined. -/
def specClassify (data : DataEnum) (attrs : List Attribute) :
    RepresentationKind :=
  if data.variants.all fun v =>
      match v.fields with
      | .unit => true
      | _ => false then
    .clike
  else if has_primitive_repr attrs then
    .primitiveNumeric
  else
    .undefined

/-- The fields of a field list, for stating per-field properties. -/
def fieldsIn (fields : Fields) : List Field :=
  match fields with
  | .unit => []
  | .unnamed fs => fs
  | .named fs => fs

/-- Substring test on character lists, used to state whether a diagnostic
message contains a type's identifier. -/
def subOf (pat : List Char) : List Char → Bool
  | [] => pat.isEmpty
  | c :: t => pat.isPrefixOf (c :: t) || subOf pat t

/-- A unit-like variant with the given name and discriminant
expression. -/
def unitVariant (name : String) (d : Option Expr) : Variant :=
  { ident := name, discriminant := d, fields := .unit }

/-- Variant `A` with no explicit discriminant. -/
def vA : Variant := unitVariant "A" none

/-- Variant `B = 0`. -/
def vB0 : Variant := unitVariant "B" (some (.lit (.int 0)))

/-- Variant `C` with no explicit discriminant. -/
def vC : Variant := unitVariant "C" none

/-- Variant `A = 1`. -/
def vA1 : Variant := unitVariant "A" (some (.lit (.int 1)))

/-- Variant `C = 2`. -/
def vC2 : Variant := unitVariant "C" (some (.lit (.int 2)))

/-- Variant `B = 2`. -/
def vB2 : Variant := unitVariant "B" (some (.lit (.int 2)))

/-- Variant `A = -1`: the negative discriminant parses as a unary
negation applied to the integer literal 1, not as an integer-literal
expression. -/
def vAneg1 : Variant := unitVariant "A" (some (.unary (.lit (.int 1))))

/-- Variant `B` with no explicit discriminant. -/
def vBn : Variant := unitVariant "B" none

/-- Variant `C` with no explicit discriminant (second copy for the
three-variant example). -/
def vCn : Variant := unitVariant "C" none

/-- An attribute carrying `repr(C)`. -/
def reprCAttr : Attribute := { meta := some (.list { ident := "repr", nested := [.word "C"] }) }

/-- An attribute carrying `repr(u8)`. -/
def reprU8Attr : Attribute := { meta := some (.list { ident := "repr", nested := [.word "u8"] }) }

lemma zero_variant_cons (first : Variant) (rest : List Variant) :
    zero_variant ⟨first :: rest⟩ =
      if (explicit_discriminant first).getD 0 = 0 then some first
      else rest.find? fun variant => explicit_discriminant variant = some 0 := rfl

lemma specClassify_eq (data : DataEnum) (attrs : List Attribute) :
    specClassify data attrs =
      if is_clike data then .clike
      else if has_primitive_repr attrs then .primitiveNumeric
      else .undefined := rfl

lemma accepted_impl_iff (name : String) (generics : List GenericParam)
    (variant : Option String) (fields : Fields) :
    artifactAccepted (impl_fromzeros name generics variant fields) = true ↔
      ∀ f ∈ fieldsIn fields, zeroCapable (add_trait_bounds generics) f.ty = true := by
  cases fields <;>
    simp [artifactAccepted, impl_fromzeros, zeroed_fields, zeroRequirements,
      fieldsIn, List.all_eq_true, List.mem_map]

/-- C1: the zero-variant resolver selects the first declared variant when
its effective discriminant (explicit integer literal if present, else 0)
is 0; otherwise it selects the first later variant in declaration order
whose explicit discriminant literal equals 0; `A, B = 0, C` resolves to A
and `A = 1, B = 0, C = 2` resolves to B; when no such variant exists and
the layout is well-defined, the derive fails with the
no-zero-discriminant panic. -/
theorem c1_zero_variant_resolution :
    (∀ (first : Variant) (rest : List Variant),
      (explicit_discriminant first).getD 0 = 0 →
      zero_variant ⟨first :: rest⟩ = some first)
  ∧ (∀ (first : Variant) (pre : List Variant) (v : Variant)
       (post : List Variant),
      (explicit_discriminant first).getD 0 ≠ 0 →
      (∀ u ∈ pre, explicit_discriminant u ≠ some 0) →
      explicit_discriminant v = some 0 →
      zero_variant ⟨first :: (pre ++ v :: post)⟩ = some v)
  ∧ (∀ (first : Variant) (rest : List Variant),
      (explicit_discriminant first).getD 0 ≠ 0 →
      (∀ u ∈ rest, explicit_discriminant u ≠ some 0) →
      zero_variant ⟨first :: rest⟩ = none)
  ∧ (∀ (name : String) (attrs : List Attribute)
       (generics : List GenericParam) (data : DataEnum),
      (is_clike data || has_primitive_repr attrs) = true →
      zero_variant data = none →
      from_zeros_derive ⟨name, attrs, generics, .enumData data⟩ =
        .error (.noZeroDiscriminant noZeroDiscriminantMsg))
  ∧ zero_variant ⟨[vA, vB0, vC]⟩ = some vA
  ∧ zero_variant ⟨[vA1, vB0, vC2]⟩ = some vB0 := by
  refine ⟨?_, ?_, ?_, ?_, by decide, by decide⟩
  · intro first rest h
    rw [zero_variant_cons, if_pos h]
  · intro first pre v post h1 h2 h3
    rw [zero_variant_cons, if_neg h1]
    induction pre with
    | nil =>
      rw [List.nil_append]
      apply List.find?_cons_of_pos
      simpa using h3
    | cons a t ih =>
      have ha : explicit_discriminant a ≠ some 0 := h2 a (by simp)
      rw [List.cons_append, List.find?_cons_of_neg _ (by simp [ha])]
      exact ih (fun u hu => h2 u (by simp [hu]))
  · intro first rest h1 h2
    rw [zero_variant_cons, if_neg h1, List.find?_eq_none]
    intro x hx
    simp [h2 x hx]
  · intro name attrs generics data hlayout hnone
    simp [from_zeros_derive, hlayout, hnone]

/-- Witness for C1 at concrete enums, including one with no zero
candidate. -/
theorem c1_witness :
    zero_variant ⟨[vA, vB0, vC]⟩ = some vA
  ∧ zero_variant ⟨[vA1, vB0, vC2]⟩ = some vB0
  ∧ zero_variant ⟨[vA1, vB2]⟩ = none
  ∧ from_zeros_derive ⟨"E", [], [], .enumData ⟨[vA1, vB2]⟩⟩ =
      .error (.noZeroDiscriminant noZeroDiscriminantMsg) :=
  ⟨c1_zero_variant_resolution.1 vA [vB0, vC] (by decide),
   c1_zero_variant_resolution.2.1 vA1 [] vB0 [vC2] (by decide) (by decide)
     (by decide),
   c1_zero_variant_resolution.2.2.1 vA1 [vB2] (by decide) (by decide),
   c1_zero_variant_resolution.2.2.2.1 "E" [] [] ⟨[vA1, vB2]⟩ (by decide)
     (by decide)⟩

/-- C2 evaluation at the failing input: in `A = -1, B, C` the negative
discriminant is a unary expression, not an integer-literal expression, so
`explicit_discriminant` returns none, the first variant's effective
discriminant defaults to 0, and the resolver selects A; the derive then
succeeds with an implementation for variant A instead of failing with the
no-zero-discriminant panic. -/
theorem c2_negative_discriminant_resolves_to_first :
    explicit_discriminant vAneg1 = none
  ∧ zero_variant ⟨[vAneg1, vBn, vCn]⟩ = some vAneg1
  ∧ from_zeros_derive ⟨"E", [], [], .enumData ⟨[vAneg1, vBn, vCn]⟩⟩ =
      .ok { name := "E", generics := [], variant := some "A",
            zeroed := .empty } :=
  ⟨by decide, by decide, by rfl⟩

/-- C4 evaluation at the failing input: the no-zero-discriminant panic of
a C-like enum named Foo with no zero candidate carries the literal
placeholder message, which does not contain the identifier Foo, while the
layout panic message does contain the identifier. -/
theorem c4_no_zero_discriminant_message_lacks_type_name :
    from_zeros_derive ⟨"Foo", [], [], .enumData ⟨[vA1, vB2]⟩⟩ =
      .error (.noZeroDiscriminant noZeroDiscriminantMsg)
  ∧ subOf "Foo".toList noZeroDiscriminantMsg.toList = false
  ∧ subOf "Foo".toList (layoutUndefinedMsg "Foo").toList = true :=
  ⟨by rfl, by decide, by decide⟩

/-- C10: an enum with zero variants is classified C-like (the all-unit
check holds vacuously), so the derive passes the layout check and fails
with the no-zero-discriminant panic, never with the layout panic. -/
theorem c10_zero_variant_enum_fails_no_zero_discriminant :
    is_clike ⟨[]⟩ = true
  ∧ ∀ (name : String) (attrs : List Attribute)
      (generics : List GenericParam),
      from_zeros_derive ⟨name, attrs, generics, .enumData ⟨[]⟩⟩ =
        .error (.noZeroDiscriminant noZeroDiscriminantMsg) := by
  refine ⟨rfl, fun name attrs generics => ?_⟩
  simp [from_zeros_derive, is_clike, zero_variant]

/-- C5: the spec's three-way classification agrees with the source's
layout check (CLike exactly when all variants are unit; PrimitiveNumeric
exactly when not all-unit but a recognized repr names one of the twelve
primitive integer types, where a bare word is primitive exactly when it
is in the twelve-name list); an Undefined classification makes the derive
fail with the layout panic regardless of the variants, before any
zero-variant search; a defined classification hands control to the
zero-variant resolver. -/
theorem c5_classification_before_resolution :
    (∀ (data : DataEnum) (attrs : List Attribute),
       (specClassify data attrs = .clike ↔ is_clike data = true)
     ∧ (specClassify data attrs = .primitiveNumeric ↔
          (is_clike data = false ∧ has_primitive_repr attrs = true))
     ∧ (specClassify data attrs = .undefined ↔
          (is_clike data = false ∧ has_primitive_repr attrs = false)))
  ∧ (∀ s : String, is_primitive (.word s) = true ↔ s ∈ VALID)
  ∧ (∀ (name : String) (attrs : List Attribute)
       (generics : List GenericParam) (data : DataEnum),
      specClassify data attrs = .undefined →
      from_zeros_derive ⟨name, attrs, generics, .enumData data⟩ =
        .error (.layoutUndefined (layoutUndefinedMsg name)))
  ∧ (∀ (name : String) (attrs : List Attribute)
       (generics : List GenericParam) (data : DataEnum),
      specClassify data attrs ≠ .undefined →
      from_zeros_derive ⟨name, attrs, generics, .enumData data⟩ =
        (match zero_variant data with
         | some v =>
           .ok (impl_fromzeros name generics (some v.ident) v.fields)
         | none => .error (.noZeroDiscriminant noZeroDiscriminantMsg))) := by
  refine ⟨?_, ?_, ?_, ?_⟩
  · intro data attrs
    cases h1 : is_clike data <;> cases h2 : has_primitive_repr attrs <;>
      simp [specClassify_eq, h1, h2]
  · intro s
    simp [is_primitive, List.any_eq_true]
  · intro name attrs generics data h
    rw [specClassify_eq] at h
    cases h1 : is_clike data <;> cases h2 : has_primitive_repr attrs <;>
      simp [h1, h2] at h ⊢ <;>
      simp [from_zeros_derive, h1, h2]
  · intro name attrs generics data h
    rw [specClassify_eq] at h
    cases h1 : is_clike data <;> cases h2 : has_primitive_repr attrs <;>
      simp [h1, h2] at h <;>
      simp [from_zeros_derive, h1, h2]

/-- Witness for C5: a one-variant enum with a tuple field and no repr
attribute fails with the layout panic; a C-like enum with an implicit
first discriminant reaches the resolver and succeeds for its first
variant. -/
theorem c5_witness :
    from_zeros_derive
      ⟨"E", [], [],
       .enumData ⟨[{ ident := "A", discriminant := some (.lit (.int 1)),
                     fields := .unnamed [{ ident := none, ty := .u8 }] }]⟩⟩ =
      .error (.layoutUndefined (layoutUndefinedMsg "E"))
  ∧ from_zeros_derive ⟨"E2", [], [], .enumData ⟨[vA]⟩⟩ =
      (match zero_variant ⟨[vA]⟩ with
       | some v => .ok (impl_fromzeros "E2" [] (some v.ident) v.fields)
       | none => .error (.noZeroDiscriminant noZeroDiscriminantMsg)) :=
  ⟨c5_classification_before_resolution.2.2.1 "E" [] [] _ (by decide),
   c5_classification_before_resolution.2.2.2 "E2" [] [] ⟨[vA]⟩ (by decide)⟩

/-- C9: only the first attribute that interprets as a repr meta list is
examined; when that first repr attribute holds no primitive integer word,
the classification is not primitive, whatever the later attributes
hold. -/
theorem c9_only_first_repr_attribute_counts :
    ∀ (pre : List Attribute) (attr : Attribute) (post : List Attribute)
      (l : MetaList),
      (∀ a ∈ pre, reprAttr a = none) →
      reprAttr attr = some l →
      l.nested.any is_primitive = false →
      has_primitive_repr (pre ++ attr :: post) = false := by
  intro pre attr post l hpre hattr hl
  have hpre' : pre.findSome? reprAttr = none := by
    rw [List.findSome?_eq_none_iff]
    exact hpre
  have hfind : (pre ++ attr :: post).findSome? reprAttr = some l := by
    rw [List.findSome?_append, hpre', List.findSome?_cons]
    simp [hattr]
  simp [has_primitive_repr, hfind, hl]

/-- Witness for C9: with a first `repr(C)` attribute, a later `repr(u8)`
attribute does not make the classification primitive, although `repr(u8)`
alone would. -/
theorem c9_witness :
    has_primitive_repr [reprCAttr, reprU8Attr] = false
  ∧ has_primitive_repr [reprU8Attr] = true :=
  ⟨c9_only_first_repr_attribute_counts [] reprCAttr [reprU8Attr]
     { ident := "repr", nested := [.word "C"] } (by simp) (by decide)
     (by decide),
   by decide⟩

/-- C3 counterexample: the claim that a non-capable field type makes the
invocation fail at generation time and emit no artifact is false — a
struct with one field of a type supported neither by a leaf declaration
nor by a generic bound still derives successfully, so not even some
weaker generation-time failure occurs. -/
theorem c3_counterexample :
    ¬ (∀ (input : DeriveInput) (fields : Fields),
        input.data = .structData fields →
        (∃ f ∈ fieldsIn fields,
          zeroCapable (add_trait_bounds input.generics) f.ty = false) →
        ∃ e, from_zeros_derive input = .error e) := by
  intro h
  obtain ⟨e, he⟩ :=
    h { ident := "S", attrs := [], generics := [],
        data := .structData
          (.named [{ ident := some "x", ty := .named "NotZero" }]) }
      (.named [{ ident := some "x", ty := .named "NotZero" }]) rfl
      ⟨{ ident := some "x", ty := .named "NotZero" }, by decide, by decide⟩
  simp [from_zeros_derive] at he

/-- C3 amended: the derive never fails on an unmet field constraint — for
structs and unions it always emits the implementation — and the emitted
implementation is accepted by the consuming stage exactly when every
composed field's type is capable under the propagated bounds, so one
non-capable field makes the artifact fail there instead. -/
theorem c3_constraint_deferred_to_consumer :
    (∀ (name : String) (attrs : List Attribute)
       (generics : List GenericParam) (fields : Fields),
       from_zeros_derive ⟨name, attrs, generics, .structData fields⟩ =
         .ok (impl_fromzeros name generics none fields))
  ∧ (∀ (name : String) (attrs : List Attribute)
       (generics : List GenericParam) (ufields : List Field),
       from_zeros_derive ⟨name, attrs, generics, .unionData ufields⟩ =
         .ok (impl_fromzeros name generics none (.named ufields)))
  ∧ (∀ (name : String) (generics : List GenericParam)
       (variant : Option String) (fields : Fields),
       artifactAccepted (impl_fromzeros name generics variant fields) =
           true ↔
         ∀ f ∈ fieldsIn fields,
           zeroCapable (add_trait_bounds generics) f.ty = true) :=
  ⟨fun _ _ _ _ => rfl, fun _ _ _ _ => rfl, accepted_impl_iff⟩

/-- Witness for the amended C3 at a one-field struct of a capable type. -/
theorem c3_witness :
    artifactAccepted
      (impl_fromzeros "S" [] none
        (.named [{ ident := some "x", ty := Ty.u8 }])) = true
  ∧ from_zeros_derive
      ⟨"S", [], [],
       .structData (.named [{ ident := some "x", ty := Ty.u8 }])⟩ =
      .ok (impl_fromzeros "S" [] none
        (.named [{ ident := some "x", ty := Ty.u8 }])) :=
  ⟨(c3_constraint_deferred_to_consumer.2.2 "S" [] none _).mpr (by decide),
   c3_constraint_deferred_to_consumer.1 "S" [] [] _⟩

/-- C6: a union derives to an implementation built from the union's own
named field list, with one zeroed call per member in declaration order,
and the consuming stage accepts it exactly when every member's type is
independently capable — one capable member is not enough. -/
theorem c6_union_requires_every_member :
    ∀ (name : String) (attrs : List Attribute)
      (generics : List GenericParam) (ufields : List Field),
      from_zeros_derive ⟨name, attrs, generics, .unionData ufields⟩ =
        .ok { name := name, generics := add_trait_bounds generics,
              variant := none,
              zeroed :=
                .braced (ufields.map fun f => (f.ident, ZeroCall.call f.ty)) }
    ∧ zeroRequirements (zeroed_fields (.named ufields)) =
        ufields.map Field.ty
    ∧ (artifactAccepted (impl_fromzeros name generics none (.named ufields)) =
          true ↔
        ∀ f ∈ ufields,
          zeroCapable (add_trait_bounds generics) f.ty = true) := by
  intro name attrs generics ufields
  refine ⟨rfl, ?_, ?_⟩
  · simp [zeroRequirements, zeroed_fields]
  · simpa [fieldsIn] using accepted_impl_iff name generics none (.named ufields)

/-- Witness for C6: a union whose two members are both capable is
accepted; the paired evaluation shows a union with one capable and one
non-capable member is not. -/
theorem c6_witness :
    artifactAccepted
      (impl_fromzeros "U" [] none
        (.named [{ ident := some "x", ty := Ty.u8 },
                 { ident := some "y", ty := Ty.bool }])) = true
  ∧ artifactAccepted
      (impl_fromzeros "U" [] none
        (.named [{ ident := some "x", ty := Ty.u8 },
                 { ident := some "y", ty := Ty.named "N" }])) = false :=
  ⟨((c6_union_requires_every_member "U" [] []
      [{ ident := some "x", ty := Ty.u8 },
       { ident := some "y", ty := Ty.bool }]).2.2).mpr (by decide),
   by decide⟩

/-- C7: the emitted implementation's generics are the input generics after
the bound pass, which preserves arity and pairs each original parameter
with its image in order: a type parameter keeps its identifier and gets
exactly the zero-capability bound appended to its bound list, while
lifetime and const parameters pass through unchanged. -/
theorem c7_generics_arity_order_bounds :
    (∀ generics : List GenericParam,
       (add_trait_bounds generics).length = generics.length)
  ∧ (∀ generics : List GenericParam,
       List.Forall₂ (fun p q =>
         match p with
         | GenericParam.typeParam n bs =>
             q = GenericParam.typeParam n (bs ++ [TypeBound.fromZeros])
         | _ => q = p) generics (add_trait_bounds generics))
  ∧ (∀ (name : String) (generics : List GenericParam)
       (variant : Option String) (fields : Fields),
       (impl_fromzeros name generics variant fields).generics =
         add_trait_bounds generics) := by
  refine ⟨fun g => List.length_map _ _, ?_, fun _ _ _ _ => rfl⟩
  intro g
  rw [add_trait_bounds, List.forall₂_map_right_iff, List.forall₂_same]
  intro p _
  cases p <;> simp

/-- C8: the field composer emits nothing for a unit field list, one
positional zeroed call per unnamed field in declaration order, and one
name-paired zeroed call per named field in declaration order; the emitted
implementation's construction expression is exactly this composition. -/
theorem c8_zeroed_fields_shape :
    zeroed_fields .unit = .empty
  ∧ (∀ fs : List Field, ∃ slots,
       zeroed_fields (.unnamed fs) = .positional slots
     ∧ List.Forall₂ (fun f s => s = ZeroCall.call f.ty) fs slots)
  ∧ (∀ fs : List Field, ∃ entries,
       zeroed_fields (.named fs) = .braced entries
     ∧ List.Forall₂ (fun f e => e = (f.ident, ZeroCall.call f.ty)) fs entries)
  ∧ (∀ (name : String) (generics : List GenericParam)
       (variant : Option String) (fields : Fields),
       (impl_fromzeros name generics variant fields).zeroed =
         zeroed_fields fields) := by
  refine ⟨rfl, ?_, ?_, fun _ _ _ _ => rfl⟩
  · intro fs
    refine ⟨_, rfl, ?_⟩
    rw [List.forall₂_map_right_iff, List.forall₂_same]
    intro f _
    rfl
  · intro fs
    refine ⟨_, rfl, ?_⟩
    rw [List.forall₂_map_right_iff, List.forall₂_same]
    intro f _
    rfl

end Fromzeros
